import Mathlib

set_option maxRecDepth 20000
set_option maxHeartbeats 2000000

/-!
Shallow embedding of the B+-tree index in src/src/btree.cpp (badgerdb BTreeIndex,
integer attribute instantiation). Pages are modelled as a total map from page
numbers to page images; the parallel key / record-id / child arrays inside a node
are modelled as total functions `Nat → _` (an idealized unbounded array: a write
past the declared capacity lands in an unaliased extra slot, where the C++ code
would overwrite neighbouring struct fields). The buffer manager is modelled by a
pin counter per page; `readPage`/`allocPage` increment it and `unPinPage`
decrements it (saturating at 0; badgerdb would throw PageNotPinnedException
there, which no trace in this file reaches). Loops are embedded as fuel-indexed
structural recursions whose fuel mirrors the loop bound.
-/

namespace BadgerBTree

/-- Record identifier stored in leaves: a (page_number, slot_number) pair that the
index stores verbatim and never interprets. -/
structure RecordId where
  page_number : Nat
  slot_number : Nat
deriving DecidableEq

/-- Attribute datatype tag (badgerdb `Datatype` enum). -/
inductive Datatype
  | INTEGER
  | DOUBLE
  | STRING
deriving DecidableEq

/-- Scan comparison operator (badgerdb `Operator` enum). -/
inductive Operator
  | LT
  | LTE
  | GTE
  | GT
deriving DecidableEq

/-- Modelled from the spec: the integer codes of the `Operator` enum constants,
which live in the missing header btree.h; spec section 6 fixes them as
GT=3, GTE=5, LT=2, LTE=4. The source compares keys directly against these codes
(`key >= this->lowOp` etc., btree.cpp:688 and btree.cpp:805). -/
def opInt : Operator → Int
  | Operator.LT => 2
  | Operator.LTE => 4
  | Operator.GTE => 5
  | Operator.GT => 3

/-- Modelled from the spec: INTARRAYNONLEAFSIZE from the missing header btree.h.
The source comment at btree.cpp:480 fixes it: "((1023 + 1) / 2) = 512". -/
def INTARRAYNONLEAFSIZE : Nat := 1023

/-- Modelled from the spec: INTARRAYLEAFSIZE from the missing header btree.h, by
the section-3 capacity formula with the 8192-byte page implied by
INTARRAYNONLEAFSIZE = 1023: (8192 - 4) / (4 + 8) = 682. -/
def INTARRAYLEAFSIZE : Nat := 682

/-- Exceptions surfaced by the index operations in btree.cpp. -/
inductive BtreeError
  | BadOpcodes
  | BadScanrange
  | NoSuchKeyFound
  | ScanNotInitialized
  | IndexScanCompleted
deriving DecidableEq

/-- Leaf node image (struct LeafNodeInt): parallel key and record-id arrays plus
the right sibling page number (0 = Page::INVALID_NUMBER). -/
structure LeafNodeInt where
  keyArray : Nat → Int
  ridArray : Nat → RecordId
  rightSibPageNo : Nat

/-- Internal node image (struct NonLeafNodeInt): level, separator keys and child
page numbers (0 = Page::INVALID_NUMBER). -/
structure NonLeafNodeInt where
  level : Int
  keyArray : Nat → Int
  pageNoArray : Nat → Nat

/-- Metadata page image (struct IndexMetaInfo). -/
structure IndexMetaInfo where
  relationName : String
  attrByteOffset : Int
  attrType : Datatype
  rootPageNo : Nat

/-- A page image. `zeroPage` stands for an all-zero-bytes page, the content of a
freshly allocated page; reading it as either node kind yields the all-zero node. -/
inductive BTPage
  | zeroPage
  | leafP (n : LeafNodeInt)
  | nonleafP (n : NonLeafNodeInt)
  | metaP (m : IndexMetaInfo)

/-- The all-zero-bytes page read as a leaf node. -/
def zeroLeaf : LeafNodeInt :=
  { keyArray := fun _ => 0
    ridArray := fun _ => { page_number := 0, slot_number := 0 }
    rightSibPageNo := 0 }

/-- The all-zero-bytes page read as an internal node. -/
def zeroNonLeaf : NonLeafNodeInt :=
  { level := 0, keyArray := fun _ => 0, pageNoArray := fun _ => 0 }

/-- The all-zero-bytes page read as a metadata page. -/
def zeroMeta : IndexMetaInfo :=
  { relationName := "", attrByteOffset := 0, attrType := Datatype.INTEGER, rootPageNo := 0 }

/-- Reinterpret a page frame as a leaf node (the C++ cast `(LeafNodeInt *)page`).
Casting a page of a different kind is a byte reinterpretation the model does not
capture; it is mapped to the zero node and is not exercised by any theorem below. -/
def asLeaf : BTPage → LeafNodeInt
  | BTPage.leafP n => n
  | BTPage.zeroPage => zeroLeaf
  | _ => zeroLeaf

/-- Reinterpret a page frame as an internal node (the C++ cast `(NonLeafNodeInt *)page`). -/
def asNonLeaf : BTPage → NonLeafNodeInt
  | BTPage.nonleafP n => n
  | BTPage.zeroPage => zeroNonLeaf
  | _ => zeroNonLeaf

/-- Reinterpret a page frame as the metadata page (the C++ cast `(IndexMetaInfo *)page`). -/
def asMeta : BTPage → IndexMetaInfo
  | BTPage.metaP m => m
  | BTPage.zeroPage => zeroMeta
  | _ => zeroMeta

/-- Pointwise array update: the effect of the C++ statement `a[i] = v` on an
array modelled as a total function. -/
def updFn {α : Type} (a : Nat → α) (i : Nat) (v : α) : Nat → α :=
  fun j => if j = i then v else a j

/-- Fueled upward scan `while (i < bound && p i) i++`, with `fuel = bound - i`
encoding the loop guard. Used for the occupancy scans and insert-position scans
of btree.cpp (lines 227, 261, 431, 533, 555). -/
def whileIdx (p : Nat → Bool) : Nat → Nat → Nat
  | i, 0 => i
  | i, Nat.succ fuel => if p i then whileIdx p (i + 1) fuel else i

/-- Fueled downward shift `for (j = hi; j > i; j--) a[j] = a[j-1]`
(btree.cpp:539-543). Each iteration reads the array produced by the previous
one, exactly as the sequential C++ loop does. -/
def shiftDown {α : Type} (i : Nat) : (Nat → α) → Nat → Nat → (Nat → α)
  | a, _, 0 => a
  | a, j, Nat.succ fuel =>
    if i < j then shiftDown i (updFn a j (a (j - 1))) (j - 1) fuel else a

/-- Sorted insert into a non-full leaf, btree.cpp:527-549 (`sortedLeafEntry`):
find the first slot whose key is not below the new key, shift the tail right in
both parallel arrays, write the new pair. Note the shift loop starts at
`j = leafOccupancy`, so its first write lands one slot past the declared array. -/
def sortedLeafEntry (leafOccupancy : Nat) (node : LeafNodeInt) (key : Int)
    (rid : RecordId) : LeafNodeInt :=
  let i := whileIdx (fun t => decide (node.keyArray t < key)) 0 leafOccupancy
  let ka := shiftDown i node.keyArray leafOccupancy leafOccupancy
  let ra := shiftDown i node.ridArray leafOccupancy leafOccupancy
  { node with keyArray := updFn ka i key, ridArray := updFn ra i rid }

/-- Sorted insert into a non-full internal node, btree.cpp:551-568
(`sortedNonLeafEntry`). The source's shift loop `for (j = nodeOccupancy; j < i; j--)`
never executes: its guard `j < i` is already false at entry because
`i ≤ nodeOccupancy = j`. The writes that do happen are `keyArray[i] = key`,
`pageNoArray[i] = pageNoArray[i-1]` and `pageNoArray[i+1] = newPageId`.
For `i = 0` the source reads `pageNoArray[-1]` (out of bounds); Nat subtraction
makes the model read slot 0 there instead. -/
def sortedNonLeafEntry (nodeOccupancy : Nat) (node : NonLeafNodeInt) (key : Int)
    (newPageId : Nat) : NonLeafNodeInt :=
  let i := whileIdx (fun t => decide (node.keyArray t < key)) 0 nodeOccupancy
  let pn1 := updFn node.pageNoArray i (node.pageNoArray (i - 1))
  { node with keyArray := updFn node.keyArray i key
              pageNoArray := updFn pn1 (i + 1) newPageId }

/-- Modelled from the spec: `locate(node, k)` of section 4.2 and 4.3 — the number
of separator keys less than or equal to `k` among the first `count` separators
(ties going to the right). Used only to compare the source's traversal and
sorted-insert position against the specified one. -/
def locateSpec (node : NonLeafNodeInt) (count : Nat) (k : Int) : Nat :=
  ((List.range count).filter (fun i => decide (node.keyArray i ≤ k))).length

/-- The in-memory state of a `BTreeIndex` object together with its file (the page
map), the buffer pool's pin counts for that file, and the next page number the
file would allocate. -/
structure BTreeIndex where
  pages : Nat → BTPage
  pins : Nat → Nat
  nextAllocPage : Nat
  rootPageNum : Nat
  initialRootPageNum : Nat
  headerPageNum : Nat
  scanExecuting : Bool
  nextEntry : Int
  currentPageNum : Nat
  lowValInt : Int
  highValInt : Int
  lowOp : Operator
  highOp : Operator
  attributeType : Datatype
  leafOccupancy : Nat
  nodeOccupancy : Nat
  treeStack : List Nat

/-- `bufMgr->readPage(file, pid, ...)`: pins the page. -/
def readPagePin (s : BTreeIndex) (pid : Nat) : BTreeIndex :=
  { s with pins := updFn s.pins pid (s.pins pid + 1) }

/-- `bufMgr->unPinPage(file, pid, dirty)`: releases one pin. The dirty flag does
not affect the pin count. Saturates at 0 where badgerdb would throw
PageNotPinnedException; no trace below unpins an unpinned page. -/
def unPinPage (s : BTreeIndex) (pid : Nat) (_dirty : Bool) : BTreeIndex :=
  { s with pins := updFn s.pins pid (s.pins pid - 1) }

/-- `bufMgr->allocPage(file, pid, ...)`: returns the next page number of the file,
pinned; the fresh page's bytes are zero (badgerdb's Page constructor zero-fills). -/
def allocPage (s : BTreeIndex) : Nat × BTreeIndex :=
  (s.nextAllocPage,
   { s with nextAllocPage := s.nextAllocPage + 1
            pins := updFn s.pins s.nextAllocPage (s.pins s.nextAllocPage + 1) })

/-- A write through a pinned frame becomes visible in the page map immediately
(the C++ code mutates the buffer frame in place). -/
def writePage (s : BTreeIndex) (pid : Nat) (p : BTPage) : BTreeIndex :=
  { s with pages := updFn s.pages pid p }

/-- `BTreeIndex::traverse` (btree.cpp:194-245), fueled. Returns the page number
the descent ends at together with the state (pins, tree stack) it leaves behind.
The child-selection loop is the source's
`while (currIndex < nodeOccupancy && key <= keyArray[currIndex] && pageNoArray[currIndex] != 0)`. -/
def traverse : Nat → BTreeIndex → Int → Nat → Int → Option (Nat × BTreeIndex)
  | 0, _, _, _, _ => none
  | Nat.succ fuel, s, key, pageNo, level =>
    if pageNo = s.initialRootPageNum then some (pageNo, s)
    else if level = 0 then some (pageNo, s)
    else
      let s1 := readPagePin s pageNo
      if s1.treeStack.head? = some pageNo then some (pageNo, s1)
      else
        let s2 := { s1 with treeStack := pageNo :: s1.treeStack }
        let node := asNonLeaf (s2.pages pageNo)
        let currIndex := whileIdx
          (fun t => decide (key ≤ node.keyArray t ∧ node.pageNoArray t ≠ 0))
          0 s2.nodeOccupancy
        let prevPageNo := node.pageNoArray currIndex
        let nextLevel := node.level
        let s3 := unPinPage s2 pageNo false
        traverse fuel s3 key prevPageNo (nextLevel - 1)

/-- The copy-half loop of `splitLeaf` (btree.cpp:320-339 and 379-400): from slot
`leafOccupancy / 2` upward, copy each (key, rid) pair into the same slot of the
new sibling and zero the key and the rid's page number in the original; the
`insertedNewEntry` flag is set when a copied key equals the incoming key and
breaks the loop at the next iteration. The incoming pair itself is never written. -/
def splitLeafLoop (key : Int) :
    LeafNodeInt → LeafNodeInt → Bool → Nat → Nat → LeafNodeInt × LeafNodeInt
  | cur, nw, _, _, 0 => (cur, nw)
  | cur, nw, inserted, i, Nat.succ fuel =>
    if inserted then (cur, nw)
    else
      let inserted2 := if cur.keyArray i = key then true else inserted
      let nw2 : LeafNodeInt :=
        { nw with keyArray := updFn nw.keyArray i (cur.keyArray i)
                  ridArray := updFn nw.ridArray i (cur.ridArray i) }
      let cur2 : LeafNodeInt :=
        { cur with keyArray := updFn cur.keyArray i 0
                   ridArray := updFn cur.ridArray i
                     { cur.ridArray i with page_number := 0 } }
      splitLeafLoop key cur2 nw2 inserted2 (i + 1) fuel

/-- The copy-half loop of `splitNonLeaf` (btree.cpp:481-500): from slot
`(nodeOccupancy + 1) / 2` upward, copy `keyArray[i]` and `pageNoArray[i+1]` into
the same slots of the new sibling and zero them in the original. -/
def splitNonLeafLoop (key : Int) :
    NonLeafNodeInt → NonLeafNodeInt → Bool → Nat → Nat → NonLeafNodeInt × NonLeafNodeInt
  | cur, nw, _, _, 0 => (cur, nw)
  | cur, nw, inserted, i, Nat.succ fuel =>
    if inserted then (cur, nw)
    else
      let inserted2 := if cur.keyArray i = key then true else inserted
      let nw2 : NonLeafNodeInt :=
        { nw with keyArray := updFn nw.keyArray i (cur.keyArray i)
                  pageNoArray := updFn nw.pageNoArray (i + 1) (cur.pageNoArray (i + 1)) }
      let cur2 : NonLeafNodeInt :=
        { cur with keyArray := updFn cur.keyArray i 0
                   pageNoArray := updFn cur.pageNoArray (i + 1) 0 }
      splitNonLeafLoop key cur2 nw2 inserted2 (i + 1) fuel

/-- The take-out-the-middle-key loop of `splitNonLeaf` (btree.cpp:516-520):
`for (i = 0; i < (nodeOccupancy+1)/2; i++) { key[i] = key[i+1]; pageNo[i] = pageNo[i+1]; }`. -/
def shiftLeftLoop : NonLeafNodeInt → Nat → Nat → NonLeafNodeInt
  | node, _, 0 => node
  | node, i, Nat.succ fuel =>
    let node2 : NonLeafNodeInt :=
      { node with keyArray := updFn node.keyArray i (node.keyArray (i + 1))
                  pageNoArray := updFn node.pageNoArray i (node.pageNoArray (i + 1)) }
    shiftLeftLoop node2 (i + 1) fuel

/-- `BTreeIndex::splitNonLeaf` (btree.cpp:452-525), parameterized over the
recursive `insertToNonLeaf` continuation so that the mutual recursion can be
closed off structurally on fuel. The incoming `newSiblingPage` argument is
received but never used by the source, and the incoming separator `key` is only
compared against copied keys — neither is inserted anywhere. The function unpins
`pageNo` twice (btree.cpp:523-524). -/
def splitNonLeafAux (recur : BTreeIndex → Int → Nat → Nat → Option BTreeIndex)
    (s : BTreeIndex) (currNode : NonLeafNodeInt) (pageNo : Nat) (key : Int)
    (newSiblingPage : Nat) : Option BTreeIndex :=
  let _ := newSiblingPage
  let s1 :=
    if pageNo = s.rootPageNum then
      let (newRootPageNo, sa) := allocPage s
      let newRoot : NonLeafNodeInt := { zeroNonLeaf with level := currNode.level + 1 }
      let sb := writePage sa newRootPageNo (BTPage.nonleafP newRoot)
      let sc := { sb with rootPageNum := newRootPageNo }
      let sd := unPinPage sc newRootPageNo true
      { sd with treeStack := sd.rootPageNum :: sd.treeStack }
    else s
  let (newPageNo, s2) := allocPage s1
  let start := (s2.nodeOccupancy + 1) / 2
  let (cur2, nw2) := splitNonLeafLoop key currNode zeroNonLeaf false start
    (s2.nodeOccupancy - start)
  let nw3 := { nw2 with level := cur2.level }
  let s3 := writePage (writePage s2 pageNo (BTPage.nonleafP cur2)) newPageNo
    (BTPage.nonleafP nw3)
  let afterRec : Option BTreeIndex :=
    match s3.treeStack with
    | [] => some s3
    | parent :: rest => recur { s3 with treeStack := rest } (nw3.keyArray 0) parent newPageNo
  match afterRec with
  | none => none
  | some s4 =>
    let nodeAgain := asNonLeaf (s4.pages newPageNo)
    let nodeShifted := shiftLeftLoop nodeAgain 0 ((s4.nodeOccupancy + 1) / 2)
    let s5 := writePage s4 newPageNo (BTPage.nonleafP nodeShifted)
    let s6 := unPinPage s5 pageNo true
    some (unPinPage s6 pageNo true)

/-- `BTreeIndex::insertToNonLeaf` (btree.cpp:420-450), fueled. In the non-full
branch the unpins at btree.cpp:447-448 are commented out in the source, so the
page read at entry stays pinned. `none` means the fuel ran out. -/
def insertToNonLeaf : Nat → BTreeIndex → Int → Nat → Nat → Option BTreeIndex
  | 0, _, _, _, _ => none
  | Nat.succ fuel, s, key, pageNo, newSiblingPage =>
    let s1 := readPagePin s pageNo
    let node := asNonLeaf (s1.pages pageNo)
    let occupancy := whileIdx (fun t => decide (node.pageNoArray t ≠ 0)) 0 s1.nodeOccupancy
    if occupancy = s1.nodeOccupancy then
      splitNonLeafAux (fun a b c d => insertToNonLeaf fuel a b c d) s1 node pageNo key
        newSiblingPage
    else
      let node2 := sortedNonLeafEntry s1.nodeOccupancy node key newSiblingPage
      some (writePage s1 pageNo (BTPage.nonleafP node2))

/-- `BTreeIndex::splitLeaf` (btree.cpp:281-418). In the first-root-split branch a
new internal root (level 1) and a sibling leaf are allocated; in the general
branch the parent is taken from the tree stack (`top()` on an empty stack is
undefined behaviour in the source and yields `none` here). Both branches run the
copy-half loop, promote `newNode->keyArray[0]` — a slot the loop never wrote —
and never insert the incoming (key, rid) pair. -/
def splitLeaf (fuel : Nat) (s : BTreeIndex) (currNode : LeafNodeInt) (key : Int)
    (rid : RecordId) (pageNo : Nat) : Option BTreeIndex :=
  let _ := rid
  let branch : Option BTreeIndex :=
    if pageNo = s.initialRootPageNum then
      let (newPageNo, sa) := allocPage s
      let newInternal : NonLeafNodeInt := { zeroNonLeaf with level := 1 }
      let sb := writePage sa newPageNo (BTPage.nonleafP newInternal)
      let sc := { sb with rootPageNum := newPageNo }
      let (newLeafPageNo, sd) := allocPage sc
      let nw0 : LeafNodeInt := { zeroLeaf with rightSibPageNo := currNode.rightSibPageNo }
      let cur0 : LeafNodeInt := { currNode with rightSibPageNo := newLeafPageNo }
      let lo := sd.leafOccupancy
      let (cur1, nw1) := splitLeafLoop key cur0 nw0 false (lo / 2) (lo - lo / 2)
      let se := writePage (writePage sd pageNo (BTPage.leafP cur1)) newLeafPageNo
        (BTPage.leafP nw1)
      let leftmostKey := nw1.keyArray 0
      match insertToNonLeaf fuel se leftmostKey newPageNo newLeafPageNo with
      | none => none
      | some sf =>
        let sg := unPinPage sf newPageNo true
        some (unPinPage sg newLeafPageNo true)
    else
      let (newLeafPageNo, sa) := allocPage s
      let nw0 : LeafNodeInt := { zeroLeaf with rightSibPageNo := currNode.rightSibPageNo }
      let cur0 : LeafNodeInt := { currNode with rightSibPageNo := newLeafPageNo }
      let lo := sa.leafOccupancy
      let (cur1, nw1) := splitLeafLoop key cur0 nw0 false (lo / 2) (lo - lo / 2)
      let sb := writePage (writePage sa pageNo (BTPage.leafP cur1)) newLeafPageNo
        (BTPage.leafP nw1)
      match sb.treeStack with
      | [] => none
      | parent :: rest =>
        let sc := { sb with treeStack := rest }
        let leftmostKey := nw1.keyArray 0
        match insertToNonLeaf fuel sc leftmostKey parent newLeafPageNo with
        | none => none
        | some sd2 => some (unPinPage sd2 newLeafPageNo true)
  match branch with
  | none => none
  | some sx => some (unPinPage sx pageNo true)

/-- `BTreeIndex::insertToLeaf` (btree.cpp:248-279): pin the leaf, count live
slots by the rid page-number sentinel, then either split or sorted-insert. -/
def insertToLeaf (fuel : Nat) (s : BTreeIndex) (key : Int) (rid : RecordId)
    (pageNo : Nat) : Option BTreeIndex :=
  let s1 := readPagePin s pageNo
  let node := asLeaf (s1.pages pageNo)
  let occupancy := whileIdx (fun t => decide ((node.ridArray t).page_number ≠ 0))
    0 s1.leafOccupancy
  if occupancy = s1.leafOccupancy then
    splitLeaf fuel s1 node key rid pageNo
  else
    let node2 := sortedLeafEntry s1.leafOccupancy node key rid
    some (unPinPage (writePage s1 pageNo (BTPage.leafP node2)) pageNo true)

/-- `BTreeIndex::insertEntry` (btree.cpp:159-185): traverse from the root (with
the literal level argument 99999), insert at the leaf the traversal returned,
then empty the tree stack. -/
def insertEntry (fuel : Nat) (s : BTreeIndex) (key : Int) (rid : RecordId) :
    Option BTreeIndex :=
  match traverse fuel s key s.rootPageNum 99999 with
  | none => none
  | some (leafToInsertAt, s1) =>
    match insertToLeaf fuel s1 key rid leafToInsertAt with
    | none => none
    | some s2 => some { s2 with treeStack := [] }

/-- The state updates of `BTreeIndex::endScan` (btree.cpp:839-863) once the
executing check has passed: mark idle and clear the cursor. `PageId nullPage = -1`
wraps to 2^32 - 1 as a 32-bit page id. The unpin of the held page
(btree.cpp:850-856) is commented out in the source, so the pin counts are
untouched. -/
def endScanState (s : BTreeIndex) : BTreeIndex :=
  { s with scanExecuting := false
           currentPageNum := 4294967295
           nextEntry := -1 }

/-- `BTreeIndex::endScan` (btree.cpp:839-863). -/
def endScan (s : BTreeIndex) : Except BtreeError BTreeIndex :=
  if s.scanExecuting = false then Except.error BtreeError.ScanNotInitialized
  else Except.ok (endScanState s)

/-- The validation prefix of `BTreeIndex::startScan` (btree.cpp:608-632): end a
running scan, reject bad opcodes (taking precedence), store the operators, and —
only when the attribute type is INTEGER — store the scan bounds and reject an
empty range. -/
def startScanChecks (s : BTreeIndex) (lowValParm : Int) (lowOpParm : Operator)
    (highValParm : Int) (highOpParm : Operator) : Except BtreeError BTreeIndex :=
  let s0 := if s.scanExecuting then endScanState s else s
  if (highOpParm ≠ Operator.LTE ∧ highOpParm ≠ Operator.LT) ∨
     (lowOpParm ≠ Operator.GTE ∧ lowOpParm ≠ Operator.GT) then
    Except.error BtreeError.BadOpcodes
  else
    let s1 := { s0 with lowOp := lowOpParm, highOp := highOpParm }
    if s1.attributeType = Datatype.INTEGER then
      let s2 := { s1 with lowValInt := lowValParm, highValInt := highValParm }
      if s2.lowValInt > s2.highValInt then Except.error BtreeError.BadScanrange
      else Except.ok s2
    else Except.ok s1

/-- Second loop of `BTreeIndex::findNextNonLeafNode` (btree.cpp:597-600):
`while (i > 0 && keyArray[i-1] >= key) i--`. -/
def findNextNonLeafNodeIdx (curNode : NonLeafNodeInt) (key : Int) : Int → Nat → Int
  | i, 0 => i
  | i, Nat.succ fuel =>
    if 0 < i ∧ curNode.keyArray (i.toNat - 1) ≥ key then
      findNextNonLeafNodeIdx curNode key (i - 1) fuel
    else i

/-- First loop of `BTreeIndex::findNextNonLeafNode` (btree.cpp:592-596):
`while (i >= 0 && pageNoArray[i] == 0) i--`. -/
def findNextNonLeafNodeSkipZeros (curNode : NonLeafNodeInt) : Int → Nat → Int
  | i, 0 => i
  | i, Nat.succ fuel =>
    if 0 ≤ i ∧ curNode.pageNoArray i.toNat = 0 then
      findNextNonLeafNodeSkipZeros curNode (i - 1) fuel
    else i

/-- `BTreeIndex::findNextNonLeafNode` (btree.cpp:590-601) assembled from its two
loops. The computed index is returned here for completeness, but the source
never assigns its `nextNodeNum` out-parameter, so the caller's variable keeps
its prior (uninitialized) value. -/
def findNextNonLeafNode (nodeOccupancy : Nat) (curNode : NonLeafNodeInt) (key : Int) : Int :=
  findNextNonLeafNodeIdx curNode key
    (findNextNonLeafNodeSkipZeros curNode (nodeOccupancy : Int) (nodeOccupancy + 2))
    (nodeOccupancy + 2)

/-- The root-to-leaf positioning loop of `startScan` (btree.cpp:651-677), fueled.
`findNextNonLeafNode` never writes its out-parameter, so `nextPageNum` keeps the
value of an uninitialized stack variable; the model fixes that indeterminate
value as 0. No theorem below exercises this loop. -/
def startScanDescent : Nat → BTreeIndex → Option BTreeIndex
  | 0, _ => none
  | Nat.succ fuel, s =>
    let node := asNonLeaf (s.pages s.currentPageNum)
    let foundLeaf := node.level = 1
    let _ := findNextNonLeafNode s.nodeOccupancy node s.lowValInt
    let nextPageNum : Nat := 0
    let s1 := unPinPage s s.currentPageNum false
    let s2 := { s1 with currentPageNum := nextPageNum }
    let s3 := readPagePin s2 s2.currentPageNum
    if foundLeaf then some s3 else startScanDescent fuel s3

/-- Outcome of one pass of the `for (i = 0; i < leafOccupancy; i++)` search of
`startScan` (btree.cpp:685-755) over the current leaf. -/
inductive ScanWalkStep
  | found (s : BTreeIndex)
  | advance (s : BTreeIndex)
  | noKey

/-- One pass of the leaf-search `for` loop of `startScan` (btree.cpp:685-755).
The seven match branches compare the key against the integer codes of the stored
operators (`key >= this->lowOp`, `key <= this->highOp`); branches five to seven
repeat earlier conditions and are unreachable, and only the first four set
`nextEntry`. At the last slot the leaf is unpinned and the walk either follows
the right sibling or reports that no key was found. -/
def startScanLeafFor (s : BTreeIndex) (node : LeafNodeInt) : Nat → Nat → ScanWalkStep
  | _, 0 => ScanWalkStep.advance s
  | i, Nat.succ fuel =>
    let key := node.keyArray i
    if (s.lowOp = Operator.GTE ∧ s.highOp = Operator.LTE) ∧
       (key ≥ opInt s.lowOp ∧ key ≤ opInt s.highOp) then
      ScanWalkStep.found { s with scanExecuting := true, nextEntry := (i : Int) }
    else if (s.lowOp = Operator.GTE ∧ s.highOp = Operator.LT) ∧
       (key ≥ opInt s.lowOp ∧ key < opInt s.highOp) then
      ScanWalkStep.found { s with scanExecuting := true, nextEntry := (i : Int) }
    else if (s.lowOp = Operator.GT ∧ s.highOp = Operator.LTE) ∧
       (key > opInt s.lowOp ∧ key ≤ opInt s.highOp) then
      ScanWalkStep.found { s with scanExecuting := true, nextEntry := (i : Int) }
    else if (s.lowOp = Operator.GT ∧ s.highOp = Operator.LT) ∧
       (key ≥ opInt s.lowOp ∧ key ≤ opInt s.highOp) then
      ScanWalkStep.found { s with scanExecuting := true, nextEntry := (i : Int) }
    else if (s.lowOp = Operator.GTE ∧ s.highOp = Operator.LT) ∧
       (key ≥ opInt s.lowOp ∧ key < opInt s.highOp) then
      ScanWalkStep.found { s with scanExecuting := true }
    else if (s.lowOp = Operator.GT ∧ s.highOp = Operator.LTE) ∧
       (key > opInt s.lowOp ∧ key ≤ opInt s.highOp) then
      ScanWalkStep.found { s with scanExecuting := true }
    else if (s.lowOp = Operator.GT ∧ s.highOp = Operator.LT) ∧
       (key ≥ opInt s.lowOp ∧ key ≤ opInt s.highOp) then
      ScanWalkStep.found { s with scanExecuting := true }
    else if i = s.leafOccupancy - 1 then
      let s1 := unPinPage s s.currentPageNum false
      if node.rightSibPageNo ≠ 0 then
        let s2 := { s1 with currentPageNum := node.rightSibPageNo }
        ScanWalkStep.advance (readPagePin s2 s2.currentPageNum)
      else ScanWalkStep.noKey
    else startScanLeafFor s node (i + 1) fuel

/-- The `while (true)` wrapper around the leaf search (btree.cpp:681-762),
fueled over sibling hops. On a match the current page is unpinned once more
(btree.cpp:762); when the rightmost leaf is exhausted,
NoSuchKeyFoundException is thrown. -/
def startScanLeafWalk : Nat → BTreeIndex → Option (Except BtreeError BTreeIndex)
  | 0, _ => none
  | Nat.succ fuel, s =>
    let node := asLeaf (s.pages s.currentPageNum)
    match startScanLeafFor s node 0 s.leafOccupancy with
    | ScanWalkStep.found s1 => some (Except.ok (unPinPage s1 s1.currentPageNum false))
    | ScanWalkStep.advance s1 => startScanLeafWalk fuel s1
    | ScanWalkStep.noKey => some (Except.error BtreeError.NoSuchKeyFound)

/-- `BTreeIndex::startScan` (btree.cpp:603-768): validation, then pin the root,
then (when the root is no longer the initial leaf root) the descent loop, then
the leaf search. A thrown exception is returned as `Except.error`; `none` means
a fuel bound was hit. -/
def startScan (fuelD fuelW : Nat) (s : BTreeIndex) (lowValParm : Int)
    (lowOpParm : Operator) (highValParm : Int) (highOpParm : Operator) :
    Option (Except BtreeError BTreeIndex) :=
  match startScanChecks s lowValParm lowOpParm highValParm highOpParm with
  | Except.error e => some (Except.error e)
  | Except.ok s1 =>
    let s2 := { s1 with scanExecuting := true, currentPageNum := s1.rootPageNum }
    let s3 := readPagePin s2 s2.rootPageNum
    if s3.initialRootPageNum ≠ s3.rootPageNum then
      match startScanDescent fuelD s3 with
      | none => none
      | some s4 => startScanLeafWalk fuelW s4
    else startScanLeafWalk fuelW s3

/-- `BTreeIndex::scanNext` (btree.cpp:778-833): re-pin the current page, advance
to the right sibling when `nextEntry` reaches the full capacity `leafOccupancy`,
then decide emission by comparing the key against the integer codes of the
stored operators; even on a match, a leaf with no right sibling throws
IndexScanCompletedException (btree.cpp:826-830) instead of returning. The C++
indexes arrays with the int `nextEntry`; `Int.toNat` models that (no trace below
reaches a negative index). -/
def scanNext (s : BTreeIndex) : Except BtreeError (RecordId × BTreeIndex) :=
  if s.scanExecuting = false then Except.error BtreeError.ScanNotInitialized
  else
    let s1 := readPagePin s s.currentPageNum
    let node := asLeaf (s1.pages s1.currentPageNum)
    let step : Except BtreeError (LeafNodeInt × BTreeIndex) :=
      if s1.nextEntry = (s1.leafOccupancy : Int) then
        let s2 := unPinPage s1 s1.currentPageNum false
        if node.rightSibPageNo = 0 then Except.error BtreeError.IndexScanCompleted
        else
          let s3 := { s2 with currentPageNum := node.rightSibPageNo }
          let s4 := readPagePin s3 s3.currentPageNum
          Except.ok (asLeaf (s4.pages s4.currentPageNum), { s4 with nextEntry := 0 })
      else Except.ok (node, s1)
    match step with
    | Except.error e => Except.error e
    | Except.ok (node2, s2) =>
      let key := node2.keyArray s2.nextEntry.toNat
      let emit : Option RecordId :=
        if (s2.lowOp = Operator.GTE ∧ s2.highOp = Operator.LTE) ∧
           (key ≥ opInt s2.lowOp ∧ key ≤ opInt s2.highOp) then
          some (node2.ridArray s2.nextEntry.toNat)
        else if (s2.lowOp = Operator.GTE ∧ s2.highOp = Operator.LT) ∧
           (key ≥ opInt s2.lowOp ∧ key < opInt s2.highOp) then
          some (node2.ridArray s2.nextEntry.toNat)
        else if (s2.lowOp = Operator.GT ∧ s2.highOp = Operator.LTE) ∧
           (key > opInt s2.lowOp ∧ key ≤ opInt s2.highOp) then
          some (node2.ridArray s2.nextEntry.toNat)
        else if (s2.lowOp = Operator.GT ∧ s2.highOp = Operator.LT) ∧
           (key ≥ opInt s2.lowOp ∧ key ≤ opInt s2.highOp) then
          some (node2.ridArray s2.nextEntry.toNat)
        else none
      match emit with
      | none => Except.error BtreeError.IndexScanCompleted
      | some outRid =>
        if node2.rightSibPageNo = 0 then Except.error BtreeError.IndexScanCompleted
        else Except.ok (outRid, { s2 with nextEntry := s2.nextEntry + 1 })

/-- Discriminator used to state that a validation call succeeded. -/
def exceptIsOk : Except BtreeError BTreeIndex → Bool
  | Except.ok _ => true
  | Except.error _ => false

/-- The state of a freshly created INTEGER index, as the constructor's creation
path (btree.cpp:73-132) leaves it for an empty base relation: page 1 holds the
metadata (root page recorded as 2), page 2 the empty leaf root with
`rightSibPageNo = 0`, all pins released, next allocation at page 3. The scan
fields the constructor leaves uninitialized are given default values here; no
code path reads them before assigning them. -/
def freshIndexInt : BTreeIndex :=
  { pages := fun pid =>
      if pid = 1 then BTPage.metaP
        { relationName := "relA", attrByteOffset := 0, attrType := Datatype.INTEGER,
          rootPageNo := 2 }
      else if pid = 2 then BTPage.leafP zeroLeaf
      else BTPage.zeroPage
    pins := fun _ => 0
    nextAllocPage := 3
    rootPageNum := 2
    initialRootPageNum := 2
    headerPageNum := 1
    scanExecuting := false
    nextEntry := -1
    currentPageNum := 0
    lowValInt := 0
    highValInt := 0
    lowOp := Operator.LT
    highOp := Operator.LT
    attributeType := Datatype.INTEGER
    leafOccupancy := INTARRAYLEAFSIZE
    nodeOccupancy := INTARRAYNONLEAFSIZE
    treeStack := [] }

/-- A freshly created index over a DOUBLE attribute. The constructor
(btree.cpp:49-53) sets the occupancy fields only for INTEGER, so they stay
uninitialized; the model gives them 0. -/
def freshDoubleIndex : BTreeIndex :=
  { freshIndexInt with attributeType := Datatype.DOUBLE, leafOccupancy := 0,
                       nodeOccupancy := 0 }

/-- A completely full leaf: 682 live entries with keys -682..-1 (ascending) and
record ids (slot+1, 1). -/
def fullLeafInt : LeafNodeInt :=
  { keyArray := fun i => if i < 682 then (i : Int) - 682 else 0
    ridArray := fun i =>
      if i < 682 then { page_number := i + 1, slot_number := 1 }
      else { page_number := 0, slot_number := 0 }
    rightSibPageNo := 0 }

/-- The fresh index with its leaf root (page 2) completely full — the state the
682 insertions of keys -682..-1 produce. -/
def fullLeafIndex : BTreeIndex :=
  { freshIndexInt with
      pages := fun pid => if pid = 2 then BTPage.leafP fullLeafInt
                          else freshIndexInt.pages pid }

/-- Trace: one entry (key -5, rid (7,1)) inserted into the fresh index. -/
def c1afterIns : Option BTreeIndex :=
  insertEntry 4 freshIndexInt (-5) { page_number := 7, slot_number := 1 }

/-- Trace: the full-range scan `[INT32_MIN, INT32_MAX]` with operators GTE/LTE
started on the one-entry index. -/
def c1scanResult : Option (Except BtreeError BTreeIndex) :=
  Option.bind c1afterIns fun s =>
    startScan 4 4 s (-2147483648) Operator.GTE 2147483647 Operator.LTE

/-- Trace: inserting key -700 (rid (999,1)) into the index whose root leaf is
full, which drives the first leaf split and root growth. -/
def c2afterOpt : Option BTreeIndex :=
  insertEntry 4 fullLeafIndex (-700) { page_number := 999, slot_number := 1 }

/-- An internal node with two live separators 10, 20 and three live children
100, 200, 300 (level 1). -/
def sampleInternalNode : NonLeafNodeInt :=
  { level := 1
    keyArray := fun i => if i = 0 then 10 else if i = 1 then 20 else 0
    pageNoArray := fun i =>
      if i = 0 then 100 else if i = 1 then 200 else if i = 2 then 300 else 0 }

/-- An index whose root (page 3, no longer the initial leaf root) is
`sampleInternalNode`. -/
def c3idx : BTreeIndex :=
  { freshIndexInt with
      rootPageNum := 3
      pages := fun pid => if pid = 3 then BTPage.nonleafP sampleInternalNode
                          else freshIndexInt.pages pid }

/-- A cursor leaf for an executing scan: single live entry key 3 with rid (9,1),
right sibling page 6. -/
def scanLeaf : LeafNodeInt :=
  { keyArray := fun i => if i = 0 then 3 else 0
    ridArray := fun i =>
      if i = 0 then { page_number := 9, slot_number := 1 }
      else { page_number := 0, slot_number := 0 }
    rightSibPageNo := 6 }

/-- An executing scan positioned at `scanLeaf` (page 5, slot 0) with stored
bounds [-10, 10] and operators GTE/LTE. -/
def c5state : BTreeIndex :=
  { freshIndexInt with
      scanExecuting := true
      currentPageNum := 5
      nextEntry := 0
      lowOp := Operator.GTE
      highOp := Operator.LTE
      lowValInt := -10
      highValInt := 10
      pages := fun pid => if pid = 5 then BTPage.leafP scanLeaf
                          else freshIndexInt.pages pid }

/-- The same executing scan with its cursor leaf (page 5) holding one pin, the
state a scan that has returned an entry is in. -/
def c9state : BTreeIndex :=
  { c5state with pins := fun p => if p = 5 then 1 else 0 }

/-- The node produced by the embedded `sortedNonLeafEntry` when separator 15
with right child 999 is inserted into `sampleInternalNode`. -/
def c8result : NonLeafNodeInt := sortedNonLeafEntry 1023 sampleInternalNode 15 999

/-- With the stored operators GTE/LTE, the first match branch of the leaf search
requires `key ≥ 5 ∧ key ≤ 4` (the operator codes) and the other branches fail on
the operator tests, so the search never finds a slot: it walks to the last slot
and, when the leaf has no right sibling, reports that no key exists. -/
theorem startScanLeafFor_gteLte_noKey (s : BTreeIndex) (node : LeafNodeInt)
    (h1 : s.lowOp = Operator.GTE) (h2 : s.highOp = Operator.LTE)
    (h3 : node.rightSibPageNo = 0) :
    ∀ fuel i, i + fuel = s.leafOccupancy → 0 < fuel →
      startScanLeafFor s node i fuel = ScanWalkStep.noKey := by
  intro fuel
  induction fuel with
  | zero => intro i hsum hpos; omega
  | succ fuel ih =>
    intro i hsum hpos
    simp only [startScanLeafFor]
    rw [h1, h2]
    simp only [opInt]
    split_ifs with hb1 hb2 hb3 hb4 hb5 hb6
    · rcases hb1 with ⟨-, hk1, hk2⟩; omega
    · rcases hb2 with ⟨⟨-, hop⟩, -⟩; exact absurd hop (by decide)
    · rcases hb3 with ⟨⟨hop, -⟩, -⟩; exact absurd hop (by decide)
    · rcases hb4 with ⟨⟨hop, -⟩, -⟩; exact absurd hop (by decide)
    · rw [h3] at hb6; exact absurd rfl hb6
    · rfl
    · exact ih (i + 1) (by omega) (by omega)

/-- Under the same operator assumptions, on a rightmost leaf the whole
`while (true)` search of `startScan` throws NoSuchKeyFoundException. -/
theorem startScanLeafWalk_noKey (fuel : Nat) (s : BTreeIndex)
    (h1 : s.lowOp = Operator.GTE) (h2 : s.highOp = Operator.LTE)
    (h3 : (asLeaf (s.pages s.currentPageNum)).rightSibPageNo = 0)
    (h4 : 0 < s.leafOccupancy) (hf : 0 < fuel) :
    startScanLeafWalk fuel s = some (Except.error BtreeError.NoSuchKeyFound) := by
  cases fuel with
  | zero => omega
  | succ fuel =>
    simp only [startScanLeafWalk]
    rw [startScanLeafFor_gteLte_noKey s (asLeaf (s.pages s.currentPageNum)) h1 h2 h3
      s.leafOccupancy 0 (by omega) h4]

/-- A full-range GTE/LTE scan on a single-leaf tree (initial root still the
root, rightmost leaf) always ends in NoSuchKeyFoundException, whatever keys the
leaf holds. -/
theorem startScan_gteLte_noKey (fuelD fuelW : Nat) (s : BTreeIndex) (lv hv : Int)
    (hexec : s.scanExecuting = false) (hattr : s.attributeType = Datatype.INTEGER)
    (hrange : ¬ lv > hv) (hroot : s.initialRootPageNum = s.rootPageNum)
    (hsib : (asLeaf (s.pages s.rootPageNum)).rightSibPageNo = 0)
    (hL : 0 < s.leafOccupancy) (hf : 0 < fuelW) :
    startScan fuelD fuelW s lv Operator.GTE hv Operator.LTE =
      some (Except.error BtreeError.NoSuchKeyFound) := by
  have hchecks : startScanChecks s lv Operator.GTE hv Operator.LTE =
      Except.ok { s with lowOp := Operator.GTE, highOp := Operator.LTE,
                         lowValInt := lv, highValInt := hv } := by
    simp [startScanChecks, hexec, hattr, hrange]
  simp only [startScan, hchecks, hroot]
  rw [if_neg (by simp [readPagePin])]
  exact startScanLeafWalk_noKey fuelW _ rfl rfl hsib hL hf

/-- C1: the round-trip law fails already at N = 1. The key -5 with rid (7,1) is
present in the root leaf after `insertEntry` on a fresh index, yet `startScan`
over the full integer range with operators GTE/LTE throws
NoSuchKeyFoundException (its leaf-match conditions compare the key against the
integer codes of the operators, `key ≥ 5 ∧ key ≤ 4`, which no key satisfies),
so the scan emits zero record ids instead of one. -/
theorem insert_then_fullScan_raises_noSuchKey :
    Option.map (fun s => ((asLeaf (s.pages 2)).keyArray 0,
      ((asLeaf (s.pages 2)).ridArray 0).page_number)) c1afterIns = some (-5, 7) ∧
    c1scanResult = some (Except.error BtreeError.NoSuchKeyFound) := by
  refine ⟨by decide, ?_⟩
  have hobs : Option.map (fun t => (t.scanExecuting, t.attributeType, t.initialRootPageNum,
      t.rootPageNum, t.leafOccupancy, (asLeaf (t.pages t.rootPageNum)).rightSibPageNo))
      c1afterIns = some (false, Datatype.INTEGER, 2, 2, 682, 0) := by decide
  obtain ⟨sIns, hIns, hf⟩ := Option.map_eq_some'.mp hobs
  simp only [Prod.mk.injEq] at hf
  obtain ⟨he, ha, hi, hr, hl, hs⟩ := hf
  have hrw : c1scanResult =
      startScan 4 4 sIns (-2147483648) Operator.GTE 2147483647 Operator.LTE := by
    unfold c1scanResult
    rw [hIns]
    rfl
  rw [hrw]
  exact startScan_gteLte_noKey 4 4 sIns _ _ he ha (by omega) (hi.trans hr.symm) hs
    (by omega) (by omega)

set_option maxHeartbeats 8000000 in
/-- C2: leaf split on a full leaf. The sibling wiring matches the claim
(old.right_sibling becomes the new page 4, new.right_sibling inherits 0), but
the split neither merges in nor stores the incoming entry: key -700 appears in
neither leaf; the sibling receives the upper half at slots 341..681 (its slot 0
stays the unwritten zero, rid (0,0)); the original keeps only 341 live entries
(slot 340 holds -342, slot 341 is cleared) instead of the claimed ceil(683/2) =
342; and the key actually promoted into the new root (page 3, slot 0) is 0, the
sibling's unwritten slot, not the sibling's first key -341. -/
theorem splitLeaf_drops_entry_and_promotes_zero :
    Option.map (fun s => ((List.range 682).all fun i =>
      !((asLeaf (s.pages 2)).keyArray i == -700) &&
      !((asLeaf (s.pages 4)).keyArray i == -700))) c2afterOpt = some true ∧
    Option.map (fun s => ((asLeaf (s.pages 2)).rightSibPageNo,
      (asLeaf (s.pages 4)).rightSibPageNo, (asLeaf (s.pages 4)).keyArray 0,
      ((asLeaf (s.pages 4)).ridArray 0).page_number)) c2afterOpt = some (4, 0, 0, 0) ∧
    Option.map (fun s => ((asLeaf (s.pages 4)).keyArray 341,
      ((asLeaf (s.pages 2)).ridArray 341).page_number, (asLeaf (s.pages 2)).keyArray 340,
      (asNonLeaf (s.pages 3)).keyArray 0)) c2afterOpt = some (-341, 0, -342, 0) := by
  exact ⟨by decide, by decide, by decide⟩

/-- C3: child selection during descent. For probe key 15 at the internal root
(separators [10, 20], children [100, 200, 300]) the spec's locate gives index 1
(one separator ≤ 15), i.e. child 200; the code's loop
`while (key <= keyArray[currIndex] && ...)` stops at index 0 and the traversal
descends to child 100 instead. -/
theorem traverse_descends_left_of_locate :
    Option.map Prod.fst (traverse 5 c3idx 15 3 99999) = some 100 ∧
    locateSpec sampleInternalNode 2 15 = 1 ∧
    sampleInternalNode.pageNoArray 1 = 200 ∧
    sampleInternalNode.pageNoArray 0 = 100 := by
  exact ⟨by decide, by decide, rfl, rfl⟩

/-- C4: root growth. After the insertion that splits the full leaf root, the new
root page 3 has level 1 (matching the claim) and child[1] = 4 (the new sibling),
but child[0] is never written (it stays 0, not the old root page 2), the root's
separator is the bogus promoted 0, and the metadata page still records root
page 2 while the in-memory root is 3 — the metadata root identifier is never
updated after construction. -/
theorem root_growth_child0_and_meta_not_updated :
    Option.map (fun s => ((asNonLeaf (s.pages 3)).level,
      (asNonLeaf (s.pages 3)).keyArray 0, (asNonLeaf (s.pages 3)).pageNoArray 0,
      (asNonLeaf (s.pages 3)).pageNoArray 1, (asMeta (s.pages 1)).rootPageNo,
      s.rootPageNum)) c2afterOpt = some (1, 0, 0, 4, 2, 3) := by
  decide

/-- C5: scanNext on an executing scan whose cursor leaf holds key 3 within the
stored range [-10, 10] under operators GTE/LTE. The claim requires rid (9,1) to
be returned and next_entry to advance; the code instead compares the key with
the operator codes (3 ≥ 5 ∧ 3 ≤ 4) and throws IndexScanCompletedException. -/
theorem scanNext_compares_key_with_opcodes :
    scanNext c5state = Except.error BtreeError.IndexScanCompleted ∧
    (asLeaf (c5state.pages 5)).keyArray 0 = 3 ∧
    ((asLeaf (c5state.pages 5)).ridArray 0).page_number = 9 ∧
    c5state.lowValInt = -10 ∧ c5state.highValInt = 10 ∧ c5state.nextEntry = 0 ∧
    c5state.lowOp = Operator.GTE ∧ c5state.highOp = Operator.LTE := by
  exact ⟨rfl, rfl, rfl, rfl, rfl, rfl, rfl, rfl⟩

/-- C6 counterexample: on a DOUBLE-attribute index, a start_scan call with valid
operators and low value 1 greater than high value 0 is not rejected at all — the
claim's unconditional range rejection is false as stated. -/
theorem startScan_nonInteger_range_not_rejected :
    exceptIsOk (startScanChecks freshDoubleIndex 1 Operator.GT 0 Operator.LT) = true ∧
    (1 : Int) > 0 ∧ freshDoubleIndex.attributeType ≠ Datatype.INTEGER := by
  exact ⟨rfl, by decide, by decide⟩

/-- C6 (amended): start_scan rejects with BadOpcodesException whenever low_op is
not in {GT, GTE} or high_op is not in {LT, LTE}, and this check takes precedence
over the range check; when the operators are valid and the attribute type is
INTEGER, it rejects with BadScanrangeException whenever low_val > high_val. -/
theorem startScan_validation_amended (s : BTreeIndex) (lv hv : Int) (lop hop : Operator) :
    (((hop ≠ Operator.LTE ∧ hop ≠ Operator.LT) ∨ (lop ≠ Operator.GTE ∧ lop ≠ Operator.GT)) →
      startScanChecks s lv lop hv hop = Except.error BtreeError.BadOpcodes) ∧
    ((lop = Operator.GTE ∨ lop = Operator.GT) → (hop = Operator.LTE ∨ hop = Operator.LT) →
      s.attributeType = Datatype.INTEGER → lv > hv →
      startScanChecks s lv lop hv hop = Except.error BtreeError.BadScanrange) := by
  constructor
  · intro h
    simp [startScanChecks, h]
  · intro hlo hhi hattr hrange
    have hops : ¬ ((hop ≠ Operator.LTE ∧ hop ≠ Operator.LT) ∨
        (lop ≠ Operator.GTE ∧ lop ≠ Operator.GT)) := by
      rcases hlo with h | h <;> rcases hhi with h2 | h2 <;> simp [h, h2]
    cases hs : s.scanExecuting <;>
      simp [startScanChecks, endScanState, hs, hops, hattr, hrange]

/-- Witness for the amended validation claim at concrete inputs: on the fresh
INTEGER index, (5, GT, 1, LT) is rejected as an invalid range and
(0, LT, 1, LT) as invalid opcodes. -/
theorem startScan_validation_amended_witness :
    startScanChecks freshIndexInt 5 Operator.GT 1 Operator.LT =
      Except.error BtreeError.BadScanrange ∧
    startScanChecks freshIndexInt 0 Operator.LT 1 Operator.LT =
      Except.error BtreeError.BadOpcodes :=
  ⟨(startScan_validation_amended freshIndexInt 5 1 Operator.GT Operator.LT).2
      (Or.inr rfl) (Or.inr rfl) rfl (by decide),
   (startScan_validation_amended freshIndexInt 0 1 Operator.LT Operator.LT).1
      (Or.inr ⟨by decide, by decide⟩)⟩

/-- C7: pin discipline. The insertion that splits the full root leaf completes
with no scan executing, yet the freshly allocated root page 3 retains pin
count 1: it is pinned by allocPage and again by the readPage in insertToNonLeaf,
but the matching unpins at btree.cpp:447-448 are commented out and splitLeaf
releases it only once. -/
theorem insertEntry_leaks_pin_on_new_root :
    Option.map (fun s => (s.pins 1, s.pins 2, s.pins 3, s.pins 4, s.scanExecuting))
      c2afterOpt = some (0, 0, 1, 0, false) := by
  decide

/-- C8: sorted insert of separator 15 with right child 999 into the non-full
internal node (keys [10, 20], children [100, 200, 300]) at position i = 1. The
claim requires keys [10, 15, 20] and children [100, 200, 999, 300] with child[1]
untouched; the code's shift loop `for (j = nodeOccupancy; j < i; j--)` never
runs, so key[1] is overwritten (20 is lost, slot 2 stays 0), child[3] never
receives 300, and child[1] is rewritten from 200 to pageNoArray[0] = 100. -/
theorem sortedNonLeafEntry_no_shift_and_rewrites_left_child :
    (c8result.keyArray 1, c8result.keyArray 2,
     c8result.pageNoArray 1, c8result.pageNoArray 2,
     c8result.pageNoArray 3) = (15, 0, 100, 999, 0) ∧
    sampleInternalNode.keyArray 1 = 20 ∧
    sampleInternalNode.pageNoArray 1 = 200 ∧
    sampleInternalNode.pageNoArray 2 = 300 ∧
    locateSpec sampleInternalNode 2 15 = 1 := by
  exact ⟨by decide, rfl, rfl, rfl, by decide⟩

/-- C9: scanNext and endScan raise ScanNotInitialized while idle, and endScan on
an executing scan marks it idle and clears the cursor — but it performs no
unpin: the cursor leaf (page 5, pinned once) still has pin count 1 afterwards,
because the unpin block at btree.cpp:850-856 is commented out. -/
theorem endScan_does_not_unpin :
    scanNext freshIndexInt = Except.error BtreeError.ScanNotInitialized ∧
    endScan freshIndexInt = Except.error BtreeError.ScanNotInitialized ∧
    endScan c9state = Except.ok (endScanState c9state) ∧
    c9state.pins 5 = 1 ∧
    (endScanState c9state).pins 5 = 1 ∧
    (endScanState c9state).scanExecuting = false ∧
    (endScanState c9state).nextEntry = -1 ∧
    (endScanState c9state).currentPageNum = 4294967295 := by
  exact ⟨rfl, rfl, rfl, rfl, rfl, rfl, rfl, rfl⟩

/-- C10: on an index whose attribute type is not INTEGER, the startScan
validation never raises BadScanrangeException and never stores the scan bounds
(lowValInt/highValInt are unchanged in any accepted state); only the operator
check applies. -/
theorem startScan_nonInteger_skips_range_check (s : BTreeIndex) (lv hv : Int)
    (lop hop : Operator) (h : s.attributeType ≠ Datatype.INTEGER) :
    startScanChecks s lv lop hv hop ≠ Except.error BtreeError.BadScanrange ∧
    ∀ s2, startScanChecks s lv lop hv hop = Except.ok s2 →
      s2.lowValInt = s.lowValInt ∧ s2.highValInt = s.highValInt := by
  by_cases hops : ((hop ≠ Operator.LTE ∧ hop ≠ Operator.LT) ∨
      (lop ≠ Operator.GTE ∧ lop ≠ Operator.GT)) <;>
    cases hs : s.scanExecuting <;>
      simp [startScanChecks, endScanState, hs, hops, h]

/-- Witness for C10 at a concrete input: on the fresh DOUBLE index, valid
operators with low value 9 above high value 2 still do not raise the
invalid-range error. -/
theorem startScan_nonInteger_skips_range_check_witness :
    startScanChecks freshDoubleIndex 9 Operator.GT 2 Operator.LT ≠
      Except.error BtreeError.BadScanrange :=
  (startScan_nonInteger_skips_range_check freshDoubleIndex 9 2 Operator.GT Operator.LT
    (by decide)).1

end BadgerBTree
